import Mathlib

/-!
# Verification of the `python_code_runner` session / execution manager

Shallow embedding of the logic of `src/python_runner/main.py`
(`PythonRunnerApp`): the JSON session cache (save / load), the per-tab
virtual-environment settings and interpreter resolution, the worker
threads that execute code / `pip freeze`, the output rendering, and the
tab bookkeeping (new tab, remove tab).

GUI widgetry (GTK containers, CSS, dialogs) is out of scope; the state the
widgets carry (per-tab code text, per-tab `venv_settings` dict, output
pane text, the status label) is modelled explicitly.  File-system and
subprocess interaction is modelled by explicit oracles / outcome data plus
effect traces, so that what the code *does* (which paths it writes, which
processes it kills) is a provable fact about the embedding.
-/

namespace PythonRunner

/-- JSON values as produced and consumed by Python's `json` module.
The session cache (`python_runner_cache.json`) and the in-memory
`venv_settings` dicts of `main.py` are built from these.  `num` covers the
integral numbers occurring in this program's documents; Python's
`json.loads (json.dumps v)` is the identity on these values, so
serialisation is modelled at the value level. -/
inductive Json where
  | null
  | bool (b : Bool)
  | num (n : Int)
  | str (s : String)
  | arr (elems : List Json)
  | obj (fields : List (String × Json))

/-- First-match association lookup, the behaviour of a Python dict whose
keys are unique (all dicts built by `main.py` have unique keys). -/
def lookupField : List (String × Json) → String → Option Json
  | [], _ => none
  | (k, v) :: rest, key => if k = key then some v else lookupField rest key

/-- Python's `key in dict`. -/
def hasField (fields : List (String × Json)) (key : String) : Bool :=
  (lookupField fields key).isSome

/-- Python's `d.get(key, default)`.  Returns `none` when the receiver is not
a dict (in Python that expression raises `AttributeError`). -/
def Json.dictGetD : Json → String → Json → Option Json
  | .obj fields, key, dflt => some ((lookupField fields key).getD dflt)
  | _, _, _ => none

/-- Python truthiness of a JSON value (`if v:` / `v or default`). -/
def Json.truthy : Json → Bool
  | .null => false
  | .bool b => b
  | .num n => n != 0
  | .str s => s != ""
  | .arr elems => !elems.isEmpty
  | .obj fields => !fields.isEmpty

/-- `DEFAULT_VENV_SETTINGS` of `main.py` (lines 50-54). -/
def DEFAULT_VENV_SETTINGS : Json :=
  .obj [("use_custom_venv", .bool false), ("venv_folder", .str "")]

/-- One tab's state as persisted by `_save_code_to_cache`: the full text of
the code buffer and the tab's `venv_settings` dict (stored verbatim on the
tab's container widget, so it is kept as a raw JSON dict here too). -/
structure Tab where
  code : String
  venv_settings : Json

/-- The tab `_add_new_tab(add_empty=True)` creates when no tab is selected:
empty code, default venv settings (`main.py` lines 429-445). -/
def defaultTab : Tab := ⟨"", DEFAULT_VENV_SETTINGS⟩

/-! ## Session persistence (`_save_code_to_cache` / `_load_code_from_cache`) -/

/-- `CACHE_FILE_NAME` (`main.py` line 35). -/
def CACHE_FILE_NAME : String := "python_runner_cache.json"

/-- `os.path.join` for the shapes used here (a directory joined with a
relative file name). -/
def pathJoin (a b : String) : String :=
  if a = "" then b
  else if a.data.getLast? = some '/' then a ++ b else a ++ "/" ++ b

/-- One element of the saved `tabs_data` list (`main.py` line 298):
`{"code": code, "venv_settings": venv_settings}`.  Note: no `id` field is
written in this revision. -/
def tabToJson (t : Tab) : Json :=
  .obj [("code", .str t.code), ("venv_settings", t.venv_settings)]

/-- The JSON document `_save_code_to_cache` dumps: one array element per
open tab, in display order (`main.py` lines 278-311). -/
def saveTabsJson (tabs : List Tab) : Json :=
  .arr (tabs.map tabToJson)

/-- File-system side effects the save path can issue.  `replaceAtomic`
(write to a temporary path, then rename over the real path) is listed so
that its absence from the traces the code produces is a provable fact. -/
inductive FileOp where
  | makedirs (dir : String)
  | openTruncateWrite (path : String) (content : Json)
  | replaceAtomic (tmpPath realPath : String)

/-- Does a trace contain an atomic temp-file-then-rename replacement? -/
def usesReplace : List FileOp → Bool
  | [] => false
  | .replaceAtomic _ _ :: _ => true
  | _ :: rest => usesReplace rest

/-- Does a trace write (truncating) to any path other than `realPath`? -/
def writesOffPath (realPath : String) : List FileOp → Bool
  | [] => false
  | .openTruncateWrite p _ :: rest => (p != realPath) || writesOffPath realPath rest
  | .makedirs _ :: rest => writesOffPath realPath rest
  | .replaceAtomic _ _ :: rest => writesOffPath realPath rest

/-- `_save_code_to_cache` (`main.py` lines 276-321): collects every tab's
live buffer text and `venv_settings` into `tabs_data`, ensures the cache
directory exists, then opens the real cache path with mode `"w"`
(truncating) and `json.dump`s the document into it.  An I/O failure is
caught and reported as the boolean result (`ioError` models the `except`
path being taken).  Returns (success flag, file-operation trace). -/
def save_code_to_cache (tabs : List Tab) (cacheDir : String) (ioError : Bool) :
    Bool × List FileOp :=
  if ioError then
    (false, [.makedirs cacheDir])
  else
    (true, [.makedirs cacheDir,
            .openTruncateWrite (pathJoin cacheDir CACHE_FILE_NAME) (saveTabsJson tabs)])

/-- The on-disk state of the cache file as `_load_code_from_cache` finds it:
absent, present but not valid JSON (`json.JSONDecodeError`), or parsed. -/
inductive CacheFile where
  | absent
  | unparseable
  | parsed (doc : Json)

/-- What a call to `_load_code_from_cache` leaves behind, starting from an
empty notebook (its startup context): the returned boolean and the tabs
that exist in the notebook afterwards. -/
structure LoadResult where
  loaded : Bool
  tabs : List Tab

/-- The `venv_settings` validation of `_load_code_from_cache`
(`main.py` lines 358-367): it must be a dict containing both the
`use_custom_venv` and the `venv_folder` key, otherwise defaults are used.
(Value types are not checked by the source.) -/
def validVenvSettings : Json → Bool
  | .obj fields => hasField fields "use_custom_venv" && hasField fields "venv_folder"
  | _ => false

/-- `code_buffer.set_text(code or "", -1)` (`main.py` line 452) applied to
the value `tab_data.get("code", "")`: a falsy value becomes `""`; a truthy
non-string raises `TypeError` (modelled as `Except.error`). -/
def codeToText (c : Json) : Except String String :=
  if c.truthy then
    match c with
    | .str s => .ok s
    | _ => .error "TypeError: set_text expects a string"
  else .ok ""

/-- One iteration of the tab-restoring loop of `_load_code_from_cache`
(`main.py` lines 352-369): read `code` and `venv_settings` with defaults,
validate the settings, and create the tab.  `tab_data.get` on a non-dict
element raises `AttributeError` (modelled as `Except.error`), which the
outer `except Exception` of the function catches. -/
def tabFromData (td : Json) : Except String Tab := do
  let codeJ ← match td.dictGetD "code" (.str "") with
    | some v => Except.ok v
    | none => Except.error "AttributeError: element is not a dict"
  let vsJ ← match td.dictGetD "venv_settings" DEFAULT_VENV_SETTINGS with
    | some v => Except.ok v
    | none => Except.error "AttributeError: element is not a dict"
  let vs := if validVenvSettings vsJ then vsJ else DEFAULT_VENV_SETTINGS
  let code ← codeToText codeJ
  return ⟨code, vs⟩

/-- The tab-restoring loop.  An exception from an element aborts the loop;
the tabs already added remain in the notebook and the outer handler makes
the function return `False` (`main.py` lines 352-391). -/
def loadTabsLoop : List Json → List Tab → LoadResult
  | [], acc => ⟨true, acc⟩
  | td :: rest, acc =>
    match tabFromData td with
    | .ok t => loadTabsLoop rest (acc ++ [t])
    | .error _ => ⟨false, acc⟩

/-- `_load_code_from_cache` (`main.py` lines 323-391), in its startup
context (empty notebook).  Missing file, JSON parse failure, a top-level
value that is not a list, and an empty list all make it return `False`
without creating any tab; otherwise the loop above runs. -/
def load_code_from_cache : CacheFile → LoadResult
  | .absent => ⟨false, []⟩
  | .unparseable => ⟨false, []⟩
  | .parsed doc =>
    match doc with
    | .arr [] => ⟨false, []⟩
    | .arr (td :: tds) => loadTabsLoop (td :: tds) []
    | _ => ⟨false, []⟩

/-- Startup tab creation (`PythonRunnerApp.__init__`, `main.py` lines
88-91): load the cache; if that returns `False`, add one empty default
tab.  The result is the list of open tabs after startup. -/
def startupTabs (f : CacheFile) : List Tab :=
  let r := load_code_from_cache f
  if r.loaded then r.tabs else r.tabs ++ [defaultTab]

/-! ## Interpreter resolution (`get_python_interpreter`) -/

/-- The file-system and search-path facts interpreter resolution consults:
`os.path.isdir`, `os.path.isfile`, `os.access(·, os.X_OK)` and
`shutil.which`. -/
structure FS where
  isdir : String → Bool
  isfile : String → Bool
  accessX : String → Bool
  which : String → Option String

/-- `os.path.join(venv_folder, "bin", name)` (`main.py` lines 1457, 1465). -/
def venvBinPath (venvFolder name : String) : String :=
  pathJoin (pathJoin venvFolder "bin") name

/-- `os.path.isfile(p) and os.access(p, os.X_OK)` (`main.py` lines 1458-1460). -/
def FS.isExecutable (fs : FS) (p : String) : Bool :=
  fs.isfile p && fs.accessX p

/-- The string `get_python_interpreter` returns when neither `python3` nor
`python` is on the search path (`main.py` line 1505). -/
def NO_PYTHON_MARKER : String := "Warning: No Python found"

/-- The system-interpreter fallback (`main.py` lines 1487-1505):
`shutil.which("python3")`, then `shutil.which("python")`, then the
distinguishable not-found marker. -/
def resolveSystemPython (fs : FS) : String :=
  match fs.which "python3" with
  | some p => p
  | none =>
    match fs.which "python" with
    | some p => p
    | none => NO_PYTHON_MARKER

/-- The body of `get_python_interpreter` once the current tab's
`venv_settings` dict is in hand (`main.py` lines 1450-1505).
`Except.error` models a Python exception escaping the function, possible
only for malformed settings values (a non-dict settings object, or a
truthy non-string `venv_folder` fed to `os.path.isdir`); every settings
dict the program itself builds stays on the `.ok` paths. -/
def resolveFromSettings (fs : FS) (settings : Json) : Except String String := do
  let useJ ← match settings.dictGetD "use_custom_venv" (.bool false) with
    | some v => Except.ok v
    | none => Except.error "AttributeError: venv_settings is not a dict"
  let folderJ ← match settings.dictGetD "venv_folder" (.str "") with
    | some v => Except.ok v
    | none => Except.error "AttributeError: venv_settings is not a dict"
  if useJ.truthy then
    if folderJ.truthy then
      match folderJ with
      | .str venv_folder =>
        if fs.isdir venv_folder then
          let python3_executable := venvBinPath venv_folder "python3"
          if fs.isExecutable python3_executable then
            return python3_executable
          else
            let python_executable := venvBinPath venv_folder "python"
            if fs.isExecutable python_executable then
              return python_executable
            else
              -- no executable interpreter in the venv bin: warn, fall back
              return resolveSystemPython fs
        else
          -- path set but invalid: warn, fall back
          return resolveSystemPython fs
      | _ => Except.error "TypeError: isdir expects a path"
    else
      -- use_custom_venv is true but the path is empty/falsy: fall back
      return resolveSystemPython fs
  else
    return resolveSystemPython fs

/-! ## Tab bookkeeping (notebook state) -/

/-- One entry of the status-label history: either a literal message passed
to `_set_status_message` / set directly on the label, or a refresh with the
current environment info (`update_python_env_status`). -/
inductive StatusMsg where
  | text (s : String)
  | envInfo
deriving DecidableEq

/-- The notebook-level state the claims are about: the open tabs in display
order, the index of the selected tab (`none` models GTK's `-1`), and the
history of status-label updates, oldest first. -/
structure NB where
  pages : List Tab
  current : Option Nat
  status : List StatusMsg

/-- `get_python_interpreter` (`main.py` lines 1431-1505): no selected tab
yields the `"Warning: No active tab"` string; a selected tab resolves from
its `venv_settings` (with the default dict if the page widget were
missing). -/
def get_python_interpreter (fs : FS) (st : NB) : Except String String :=
  match st.current with
  | none => .ok "Warning: No active tab"
  | some i =>
    let settings := match st.pages[i]? with
      | some p => p.venv_settings
      | none => DEFAULT_VENV_SETTINGS
    resolveFromSettings fs settings

/-- `_add_tab_with_content` (`main.py` lines 447-466): append the new tab,
select it, and refresh the environment status. -/
def add_tab_with_content (st : NB) (code : String) (venv_settings : Json) : NB :=
  { pages := st.pages ++ [⟨code, venv_settings⟩]
    current := some st.pages.length
    status := st.status ++ [.envInfo] }

/-- `_add_new_tab` (`main.py` lines 429-445): the new tab's venv settings
are a copy of the selected tab's when `inherit_settings` is set and a tab
is selected, otherwise `DEFAULT_VENV_SETTINGS`. -/
def add_new_tab (st : NB) (addEmpty inheritSettings : Bool) : NB :=
  let initial_venv_settings :=
    if inheritSettings then
      match st.current with
      | some i =>
        match st.pages[i]? with
        | some p => p.venv_settings
        | none => DEFAULT_VENV_SETTINGS
      | none => DEFAULT_VENV_SETTINGS
    else DEFAULT_VENV_SETTINGS
  let code := if addEmpty then "" else "# New Tab"
  add_tab_with_content st code initial_venv_settings

/-- `on_new_tab_clicked` (`main.py` lines 1253-1264): add an empty tab
inheriting the current tab's settings, then show a temporary status. -/
def on_new_tab_clicked (st : NB) : NB :=
  let st' := add_new_tab st true true
  { st' with status := st'.status ++ [.text "New Tab Added"] }

/-- The status text `on_page_removed` shows when the last tab is gone
(`main.py` line 1611). -/
def NO_TABS_MSG : String := "No tabs open. Press Ctrl+N for a new tab."

/-- `on_page_removed` (`main.py` lines 1599-1611): with tabs remaining the
environment status is refreshed; with none left the label reports that no
tabs are open.  No replacement tab is created. -/
def on_page_removed (st : NB) : NB :=
  match st.current with
  | some _ => { st with status := st.status ++ [.envInfo] }
  | none => { st with status := st.status ++ [.text NO_TABS_MSG] }

/-- `on_remove_tab_clicked` (`main.py` lines 1670-1692): remove the
selected page (GTK then selects the page now at that index, or the new
last page, or nothing if none remain, firing `page-removed`), then show a
temporary "Tab removed." status. -/
def on_remove_tab_clicked (st : NB) : NB :=
  match st.current with
  | none => { st with status := st.status ++ [.text "No tab selected to remove."] }
  | some i =>
    let pages' := st.pages.eraseIdx i
    let current' := if pages'.length = 0 then none else some (min i (pages'.length - 1))
    let st' := on_page_removed { pages := pages', current := current', status := st.status }
    { st' with status := st'.status ++ [.text "Tab removed."] }

/-! ## Execution manager (`_run_code_thread` / `_run_pip_freeze_thread`)

The subprocess's behaviour is an outcome datum; the worker's observable
actions (spawn, wait, kill) form an effect trace.  Exceptions inside the
`try` block are explicit (`PyExc`), and the `except` clauses are modelled
as a matching pass over handler clauses, so "no exception escapes the
worker" is the provable absence of the `Except.error` result. -/

/-- `EXECUTION_TIMEOUT` (`main.py` line 37), in seconds. -/
def EXECUTION_TIMEOUT : Nat := 30

/-- How the wait on the subprocess ends: normal exit before the timeout
(with exit code and full captured streams), or the timeout elapsing first
(with whatever output `communicate()` can still collect after the kill). -/
inductive WaitOutcome where
  | exited (rc : Int) (out err : String)
  | timedOut (tailOut tailErr : String)
deriving DecidableEq

/-- How the whole spawn-and-wait goes: `Popen` succeeds and the wait ends
as given; `Popen` raises `FileNotFoundError`; or some other OS-level
exception occurs (`stillRunning` records whether the subprocess is alive
when it does, which decides the cleanup kill). -/
inductive SpawnOutcome where
  | ok (w : WaitOutcome)
  | fileNotFound
  | osFailure (msg : String) (stillRunning : Bool)
deriving DecidableEq

/-- The Python exceptions the worker body can raise. -/
inductive PyExc where
  | fileNotFoundError
  | timeoutExpired (tailOut tailErr : String)
  | otherException (msg : String) (stillRunning : Bool)
deriving DecidableEq

/-- The exception classes named by the worker's `except` clauses. -/
inductive PyExcClass where
  | fileNotFoundErrorClass
  | timeoutExpiredClass
  | exceptionClass
deriving DecidableEq

/-- Which exceptions each `except` clause catches.  Every `PyExc` is a
subclass of `Exception`, so `exceptionClass` catches all of them. -/
def catches : PyExcClass → PyExc → Bool
  | .fileNotFoundErrorClass, .fileNotFoundError => true
  | .fileNotFoundErrorClass, _ => false
  | .timeoutExpiredClass, .timeoutExpired _ _ => true
  | .timeoutExpiredClass, _ => false
  | .exceptionClass, _ => true

/-- The `except` clauses of both workers, in source order
(`main.py` lines 686-711 and 1771-1794). -/
def handlerClauses : List PyExcClass :=
  [.fileNotFoundErrorClass, .timeoutExpiredClass, .exceptionClass]

/-- Observable subprocess-related actions of a worker. -/
inductive Effect where
  | popen (argv : List String) (newSession : Bool)
  | communicateTimeout (seconds : Nat)
  | kill
  | communicate
  | killGroup
deriving DecidableEq

/-- Does a trace contain any action addressing the subprocess's
descendants (a process-group kill)?  `Popen.kill()` signals only the
direct child's pid; killing children needs `os.killpg` on a process group
created with `start_new_session=True`, neither of which the source uses. -/
def killsDescendants : List Effect → Bool
  | [] => false
  | .killGroup :: _ => true
  | _ :: rest => killsDescendants rest

/-- Does a trace contain the direct `process.kill()`? -/
def killsProcess : List Effect → Bool
  | [] => false
  | .kill :: _ => true
  | _ :: rest => killsProcess rest

/-- The data a worker posts back to the interactive thread via
`GLib.idle_add(self._update_output_view, output, error, success, ...)`. -/
structure Delivery where
  output : String
  error : String
  success : Bool
deriving DecidableEq

/-- The error text of the timeout branch of `_run_code_thread`
(`main.py` line 695). -/
def timeoutErrorText (tailErr : String) : String :=
  "--- Error: Code execution timed out after " ++
    (toString EXECUTION_TIMEOUT ++ (" seconds ---\n" ++ tailErr))

/-- The error text of the nonzero-exit branch (`main.py` line 684). -/
def exitCodeErrorText (rc : Int) (err : String) : String :=
  "--- Error (Exit Code " ++ (toString rc ++ (") ---\n" ++ err))

/-- The error text of the success-with-stderr branch (`main.py` line 680). -/
def warningsErrorText (err : String) : String :=
  "--- Warnings/Stderr Output ---\n" ++ err

/-- The error text of the `FileNotFoundError` handler (`main.py` line 687). -/
def interpreterNotFoundText (interp : String) : String :=
  "Error: Python interpreter '" ++ (interp ++ "' not found.")

/-- The `try` block of `_run_code_thread` (`main.py` lines 663-685):
spawn `[interp, "-u", "-c", code]`, `communicate(timeout=30)`, and on
normal exit build output/error/success; failures raise.  Returns the
delivery or the raised exception, with the trace of effects so far. -/
def run_code_try (code interp : String) : SpawnOutcome →
    Except PyExc Delivery × List Effect
  | .fileNotFound =>
    (.error .fileNotFoundError, [.popen [interp, "-u", "-c", code] false])
  | .osFailure msg stillRunning =>
    (.error (.otherException msg stillRunning), [.popen [interp, "-u", "-c", code] false])
  | .ok (.exited rc out err) =>
    (.ok (if rc = 0 then
        ⟨out, if err != "" then warningsErrorText err else "", true⟩
      else
        ⟨out, exitCodeErrorText rc err, false⟩),
     [.popen [interp, "-u", "-c", code] false, .communicateTimeout EXECUTION_TIMEOUT])
  | .ok (.timedOut tailOut tailErr) =>
    (.error (.timeoutExpired tailOut tailErr),
     [.popen [interp, "-u", "-c", code] false, .communicateTimeout EXECUTION_TIMEOUT])

/-- The `except` handlers of `_run_code_thread` (`main.py` lines 686-711),
given the clause that matched and the exception: each converts the failure
to delivery data; the timeout handler also kills the subprocess and
re-`communicate`s for the partial output, and the generic handler kills a
still-running subprocess.  (The cross combinations a later clause could
see never occur because earlier clauses match first.) -/
def run_code_handle (interp : String) : PyExcClass → PyExc → Delivery × List Effect
  | .fileNotFoundErrorClass, _ =>
    (⟨"", interpreterNotFoundText interp, false⟩, [])
  | .timeoutExpiredClass, .timeoutExpired tailOut tailErr =>
    (⟨tailOut, timeoutErrorText tailErr, false⟩, [.kill, .communicate])
  | .timeoutExpiredClass, _ =>
    (⟨"", timeoutErrorText "", false⟩, [.kill, .communicate])
  | .exceptionClass, .otherException msg stillRunning =>
    (⟨"", "Error executing code: " ++ msg, false⟩,
     if stillRunning then [.kill, .communicate] else [])
  | .exceptionClass, _ => (⟨"", "Error executing code: ", false⟩, [])

/-- `_run_code_thread` (`main.py` lines 654-722): the `try` block, then the
`except` clauses tried in order.  `Except.error` would mean an exception
escaped the worker thread uncaught. -/
def run_code_worker (code interp : String) (o : SpawnOutcome) :
    Except PyExc (Delivery × List Effect) :=
  match run_code_try code interp o with
  | (.ok d, tr) => .ok (d, tr)
  | (.error e, tr) =>
    match handlerClauses.find? (fun c => catches c e) with
    | some c =>
      let (d, tr') := run_code_handle interp c e
      .ok (d, tr ++ tr')
    | none => .error e

/-- `"No module named pip" in stderr_data` (`main.py` line 1765), via a
structural substring test on the character lists. -/
def charsHaveInfix (needle : List Char) : List Char → Bool
  | [] => needle.isEmpty
  | c :: rest => needle.isPrefixOf (c :: rest) || charsHaveInfix needle rest

/-- Python's `needle in hay` for strings. -/
def strContains (hay needle : String) : Bool :=
  charsHaveInfix needle.data hay.data

/-- The placeholder `_run_pip_freeze_thread` shows for an empty listing
(`main.py` line 1758). -/
def NO_PACKAGES_TEXT : String := "# No packages installed in this environment."

/-- The `try` block of `_run_pip_freeze_thread` (`main.py` lines
1740-1769): spawn `[interp, "-m", "pip", "freeze"]`, wait with the same
timeout, and on normal exit build the delivery: an empty successful
listing becomes the human-readable placeholder; a nonzero exit checks
stderr for a missing `pip` module. -/
def pip_freeze_try (interp : String) : SpawnOutcome →
    Except PyExc Delivery × List Effect
  | .fileNotFound =>
    (.error .fileNotFoundError, [.popen [interp, "-m", "pip", "freeze"] false])
  | .osFailure msg stillRunning =>
    (.error (.otherException msg stillRunning),
     [.popen [interp, "-m", "pip", "freeze"] false])
  | .ok (.exited rc out err) =>
    (.ok (if rc = 0 then
        ⟨if (out.trim != "") then out else NO_PACKAGES_TEXT,
         if err != "" then "--- Pip Warnings/Stderr ---\n" ++ err else "", true⟩
      else
        ⟨out,
         if strContains err "No module named pip" then
           "Error: 'pip' module not found for interpreter '" ++ interp ++
             "'.\nPlease ensure pip is installed in the selected environment."
         else
           "Error running pip freeze (Exit Code: " ++ toString rc ++ "):\n" ++ err,
         false⟩),
     [.popen [interp, "-m", "pip", "freeze"] false, .communicateTimeout EXECUTION_TIMEOUT])
  | .ok (.timedOut tailOut tailErr) =>
    (.error (.timeoutExpired tailOut tailErr),
     [.popen [interp, "-m", "pip", "freeze"] false, .communicateTimeout EXECUTION_TIMEOUT])

/-- The `except` handlers of `_run_pip_freeze_thread` (`main.py` lines
1771-1794), mirroring `run_code_handle` with pip-specific texts. -/
def pip_freeze_handle (interp : String) : PyExcClass → PyExc → Delivery × List Effect
  | .fileNotFoundErrorClass, _ =>
    (⟨"", interpreterNotFoundText interp, false⟩, [])
  | .timeoutExpiredClass, .timeoutExpired tailOut tailErr =>
    (⟨tailOut,
      "--- Error: pip freeze timed out after " ++ toString EXECUTION_TIMEOUT ++
        " seconds ---\n" ++ tailErr, false⟩, [.kill, .communicate])
  | .timeoutExpiredClass, _ =>
    (⟨"", "--- Error: pip freeze timed out after " ++ toString EXECUTION_TIMEOUT ++
        " seconds ---\n", false⟩, [.kill, .communicate])
  | .exceptionClass, .otherException msg stillRunning =>
    (⟨"", "Error executing pip freeze: " ++ msg, false⟩,
     if stillRunning then [.kill, .communicate] else [])
  | .exceptionClass, _ => (⟨"", "Error executing pip freeze: ", false⟩, [])

/-- `_run_pip_freeze_thread` (`main.py` lines 1731-1805). -/
def pip_freeze_worker (interp : String) (o : SpawnOutcome) :
    Except PyExc (Delivery × List Effect) :=
  match pip_freeze_try interp o with
  | (.ok d, tr) => .ok (d, tr)
  | (.error e, tr) =>
    match handlerClauses.find? (fun c => catches c e) with
    | some c =>
      let (d, tr') := pip_freeze_handle interp c e
      .ok (d, tr ++ tr')
    | none => .error e

/-- The failure modes of the execution path the spec's propagation policy
names: missing interpreter binary, timeout, unexpected OS-level failure. -/
def isFailureMode : SpawnOutcome → Bool
  | .fileNotFound => true
  | .osFailure _ _ => true
  | .ok (.timedOut _ _) => true
  | .ok (.exited _ _ _) => false

/-! ## Output rendering and stale-result handling (`_update_output_view`) -/

/-- The text `_update_output_view` puts into the output pane
(`main.py` lines 728-735): stdout, then — when there is error text — a
newline and the error text (which itself starts with its marker line); an
empty stdout shows the error text alone. -/
def renderOutput (output error : String) : String :=
  let full := output
  if error != "" then
    (if full != "" then full ++ "\n" ++ error else error)
  else full

/-- One tab's presentation state, identified by the widget identity of its
buffers (`tid`): the worker captures the originating tab's widgets at
click time, so delivery addresses this identity, not a display index. -/
structure TabUI where
  tid : Nat
  outputText : String
deriving DecidableEq

/-- The interactive thread's view for result delivery: the open tabs'
panes and the selected index. -/
structure UIState where
  tabs : List TabUI
  current : Option Nat

/-- The identity of the currently active tab, if any. -/
def activeTid (ui : UIState) : Option Nat :=
  match ui.current with
  | none => none
  | some i =>
    match ui.tabs[i]? with
    | some t => some t.tid
    | none => none

/-- `_update_output_view` (`main.py` lines 724-748), run on the interactive
thread: writes the rendered text into the *originating* tab's output
buffer unconditionally, and restores the default status only when the
originating tab is still the active one.  Returns the new UI state and
whether the status restore ran. -/
def update_output_view (ui : UIState) (originTid : Nat) (output error : String) :
    UIState × Bool :=
  let newTabs := ui.tabs.map fun t =>
    if t.tid = originTid then { t with outputText := renderOutput output error } else t
  (⟨newTabs, ui.current⟩, activeTid ui == some originTid)

/-! ## Shared helper lemmas -/

/-- Two string concatenations differ when their left parts differ at an
index both cover. -/
theorem string_append_ne_of_data_ne (n : Nat) (a b x y : String)
    (ha : n < a.data.length) (hb : n < b.data.length)
    (hne : a.data[n]? ≠ b.data[n]?) : (a ++ x) ≠ (b ++ y) := by
  intro h
  apply hne
  have h2 := congrArg String.data h
  rw [String.data_append, String.data_append] at h2
  calc a.data[n]? = (a.data ++ x.data)[n]? := (List.getElem?_append_left ha).symm
    _ = (b.data ++ y.data)[n]? := by rw [h2]
    _ = b.data[n]? := List.getElem?_append_left hb

/-- A concatenation with a nonempty left part is nonempty. -/
theorem string_append_ne_empty (a x : String) (ha : a.data ≠ []) : (a ++ x) ≠ "" := by
  intro h
  have h2 := congrArg String.data h
  rw [String.data_append] at h2
  exact ha (List.append_eq_nil.mp h2).1

/-- `codeToText` is the identity on strings: a falsy string is `""`. -/
theorem codeToText_str (s : String) : codeToText (.str s) = .ok s := by
  by_cases h : s = ""
  · subst h; rfl
  · simp [codeToText, Json.truthy, h]

/-- Restoring a saved tab whose settings pass the load-time validation
reproduces it exactly. -/
theorem tabFromData_tabToJson (t : Tab)
    (hv : validVenvSettings t.venv_settings = true) :
    tabFromData (tabToJson t) = .ok t := by
  simp [tabFromData, tabToJson, Json.dictGetD, lookupField, hv, codeToText_str,
    bind, Except.bind, Functor.map, Except.map, pure, Except.pure]

/-- The restore loop over a saved document with valid settings appends the
saved tabs in order and succeeds. -/
theorem loadTabsLoop_map (tabs : List Tab)
    (hvalid : ∀ t ∈ tabs, validVenvSettings t.venv_settings = true) :
    ∀ acc, loadTabsLoop (tabs.map tabToJson) acc = ⟨true, acc ++ tabs⟩ := by
  induction tabs with
  | nil => intro acc; simp [loadTabsLoop]
  | cons t rest ih =>
    intro acc
    have hv : validVenvSettings t.venv_settings = true := hvalid t (by simp)
    rw [List.map_cons]
    simp only [loadTabsLoop, tabFromData_tabToJson t hv]
    rw [ih (fun s hs => hvalid s (by simp [hs])) (acc ++ [t])]
    simp

/-! ## C1 — invalid custom venv silently falls back to a system interpreter -/

/-- C1: for every tab whose settings have a truthy `use_custom_venv` but
whose `venv_folder` is empty, not a directory, or a directory with no
executable `bin/python3` or `bin/python`, `get_python_interpreter`
resolves to the system fallback without raising: the result is
`shutil.which("python3")` when that exists (python3 preferred), otherwise
`shutil.which("python")`, otherwise the distinguishable not-found marker —
never a path constructed under the invalid venv folder. -/
theorem c1_invalid_venv_falls_back (fs : FS) (st : NB) (i : Nat) (p : Tab)
    (u : Json) (f : String)
    (hcur : st.current = some i) (hpage : st.pages[i]? = some p)
    (huse : p.venv_settings.dictGetD "use_custom_venv" (.bool false) = some u)
    (htruthy : u.truthy = true)
    (hfolder : p.venv_settings.dictGetD "venv_folder" (.str "") = some (.str f))
    (hinvalid : f = "" ∨ fs.isdir f = false ∨
      (fs.isExecutable (venvBinPath f "python3") = false ∧
       fs.isExecutable (venvBinPath f "python") = false)) :
    get_python_interpreter fs st = .ok (resolveSystemPython fs) ∧
    (∀ q, fs.which "python3" = some q → resolveSystemPython fs = q) ∧
    (resolveSystemPython fs = NO_PYTHON_MARKER ∨
      (∃ q, (fs.which "python3" = some q ∨ fs.which "python" = some q) ∧
        resolveSystemPython fs = q)) := by
  refine ⟨?_, ?_, ?_⟩
  · have hstr : Json.truthy (.str f) = (f != "") := rfl
    rcases hinvalid with hf | hdir | ⟨h3, h1⟩
    · subst hf
      simp [get_python_interpreter, hcur, hpage, resolveFromSettings, huse, hfolder,
        htruthy, hstr, bind, Except.bind, pure, Except.pure]
    · by_cases hf : f = ""
      · subst hf
        simp [get_python_interpreter, hcur, hpage, resolveFromSettings, huse, hfolder,
          htruthy, hstr, bind, Except.bind, pure, Except.pure]
      · simp [get_python_interpreter, hcur, hpage, resolveFromSettings, huse, hfolder,
          htruthy, hstr, hf, hdir, bind, Except.bind, pure, Except.pure]
    · by_cases hf : f = ""
      · subst hf
        simp [get_python_interpreter, hcur, hpage, resolveFromSettings, huse, hfolder,
          htruthy, hstr, bind, Except.bind, pure, Except.pure]
      · by_cases hdir : fs.isdir f
        · simp [get_python_interpreter, hcur, hpage, resolveFromSettings, huse, hfolder,
            htruthy, hstr, hf, hdir, h3, h1, bind, Except.bind, pure, Except.pure]
        · simp [get_python_interpreter, hcur, hpage, resolveFromSettings, huse, hfolder,
            htruthy, hstr, hf, hdir, bind, Except.bind, pure, Except.pure]
  · intro q hq
    rw [resolveSystemPython, hq]
  · rw [resolveSystemPython]
    cases h3 : fs.which "python3" with
    | some q => exact Or.inr ⟨q, Or.inl rfl, rfl⟩
    | none =>
      cases hp : fs.which "python" with
      | some q => exact Or.inr ⟨q, Or.inr rfl, rfl⟩
      | none => exact Or.inl rfl

/-- A search path containing only `/usr/bin/python3` and a file system on
which nothing is a directory or an executable file. -/
def fs₁ : FS :=
  ⟨fun _ => false, fun _ => false, fun _ => false,
   fun n => if n = "python3" then some "/usr/bin/python3" else none⟩

/-- One tab requesting the invalid custom venv `/nonexistent`, selected. -/
def st₁ : NB :=
  ⟨[⟨"print(1)", .obj [("use_custom_venv", .bool true), ("venv_folder", .str "/nonexistent")]⟩],
   some 0, []⟩

/-- Witness for C1 at `{use_custom_venv: true, venv_folder: "/nonexistent"}`:
resolution returns the system `python3`, not a path under `/nonexistent`. -/
theorem c1_witness : get_python_interpreter fs₁ st₁ = .ok "/usr/bin/python3" := by
  have h := c1_invalid_venv_falls_back fs₁ st₁ 0
    ⟨"print(1)", .obj [("use_custom_venv", .bool true), ("venv_folder", .str "/nonexistent")]⟩
    (.bool true) "/nonexistent" rfl rfl rfl rfl rfl (Or.inr (Or.inl rfl))
  rw [h.1]
  rfl

/-! ## C2 — save/load round trip -/

/-- C2 counterexample: the claim quantifies over *every* list of open
tabs, but the empty list does not round-trip: saving zero tabs writes the
empty array, which `_load_code_from_cache` rejects (returning `False`), so
startup creates one default tab instead of reconstructing zero tabs. -/
theorem c2_counterexample :
    (load_code_from_cache (.parsed (saveTabsJson []))).loaded = false ∧
    startupTabs (.parsed (saveTabsJson [])) ≠ ([] : List Tab) :=
  ⟨rfl, List.cons_ne_nil defaultTab []⟩

/-- C2 (amended): for every *nonempty* list of tabs with arbitrary source
text and valid settings (a dict carrying both venv keys, as the loader
checks), loading the just-saved document reconstructs exactly the same
tabs — same text, same settings, same order.  (This revision's document
carries no tab ids, so there are no ids to preserve.) -/
theorem c2_roundtrip (tabs : List Tab) (hne : tabs ≠ [])
    (hvalid : ∀ t ∈ tabs, validVenvSettings t.venv_settings = true) :
    load_code_from_cache (.parsed (saveTabsJson tabs)) = ⟨true, tabs⟩ := by
  cases tabs with
  | nil => exact absurd rfl hne
  | cons t rest =>
    rw [saveTabsJson, List.map_cons, load_code_from_cache]
    rw [← List.map_cons, loadTabsLoop_map (t :: rest) hvalid []]
    simp

/-- Witness for C2 at a one-tab session. -/
theorem c2_roundtrip_witness :
    load_code_from_cache (.parsed (saveTabsJson [⟨"print(1)", DEFAULT_VENV_SETTINGS⟩])) =
      ⟨true, [⟨"print(1)", DEFAULT_VENV_SETTINGS⟩]⟩ :=
  c2_roundtrip _ (List.cons_ne_nil _ _)
    (by intro t ht; rw [List.mem_singleton] at ht; subst ht; rfl)

/-! ## C3 — corrupt cache rejected wholesale, one default tab -/

/-- C3: a cache file that fails to parse as JSON, whose top-level value is
not a JSON array, or that is the empty array, is rejected wholesale: the
loader returns `False` having created no tab and raising nothing, and
startup then creates exactly one fresh default (empty) tab. -/
theorem c3_corrupt_cache_rejected (f : CacheFile)
    (h : f = .unparseable ∨
      (∃ doc, f = .parsed doc ∧ ∀ elems, doc ≠ .arr elems) ∨
      f = .parsed (.arr [])) :
    load_code_from_cache f = ⟨false, []⟩ ∧ startupTabs f = [defaultTab] := by
  have hload : load_code_from_cache f = ⟨false, []⟩ := by
    rcases h with h | ⟨doc, rfl, hdoc⟩ | h
    · subst h; rfl
    · cases doc with
      | arr elems => exact absurd rfl (hdoc elems)
      | null => rfl
      | bool b => rfl
      | num n => rfl
      | str s => rfl
      | obj fields => rfl
    · subst h; rfl
  refine ⟨hload, ?_⟩
  rw [startupTabs, hload]
  rfl

/-- Witness for C3 at the spec's own test document, the JSON string
`"not a json array"`: startup yields exactly one default tab. -/
theorem c3_witness : startupTabs (.parsed (.str "not a json array")) = [defaultTab] :=
  (c3_corrupt_cache_rejected _
    (Or.inr (Or.inl ⟨.str "not a json array", rfl, fun _ h => Json.noConfusion h⟩))).2

/-! ## C4 — timeout handling -/

/-- A timed-out run of user code that itself spawned a `sleep 100`
grandchild: the worker observes the timeout with partial stdout
collected. -/
def c4TimeoutRun : Except PyExc (Delivery × List Effect) :=
  run_code_worker
    "import subprocess, time\nsubprocess.Popen([\"sleep\", \"100\"])\ntime.sleep(60)"
    "/usr/bin/python3" (.ok (.timedOut "partial" ""))

/-- C4 counterexample: on this timed-out run the worker reports the
timeout and kills the direct subprocess, but its effect trace contains no
action addressing the subprocess's children (no process-group kill —
`Popen.kill()` signals only the direct child's pid), so the claim's
"the subprocess and any of its children are forcibly killed" fails. -/
theorem c4_counterexample :
    (c4TimeoutRun.map fun r => r.1) = .ok ⟨"partial", timeoutErrorText "", false⟩ ∧
    (c4TimeoutRun.map fun r => killsProcess r.2) = .ok true ∧
    (c4TimeoutRun.map fun r => killsDescendants r.2) = .ok false :=
  ⟨rfl, rfl, rfl⟩

/-- C4 (amended): for every execution whose subprocess is still running
when the 30-second timeout elapses, the worker reports a timed-out result
(`success = false`, an error text distinct from every nonzero-exit error
text), the *direct* subprocess is forcibly killed before the result is
returned and partial output is collected best-effort — but descendant
processes are not addressed (no process-group kill is ever issued). -/
theorem c4_timeout_kills_direct_process (code interp tailOut tailErr : String) :
    run_code_worker code interp (.ok (.timedOut tailOut tailErr)) =
      .ok (⟨tailOut, timeoutErrorText tailErr, false⟩,
        [.popen [interp, "-u", "-c", code] false, .communicateTimeout EXECUTION_TIMEOUT,
         .kill, .communicate]) ∧
    killsProcess [.popen [interp, "-u", "-c", code] false,
      .communicateTimeout EXECUTION_TIMEOUT, .kill, .communicate] = true ∧
    killsDescendants [.popen [interp, "-u", "-c", code] false,
      .communicateTimeout EXECUTION_TIMEOUT, .kill, .communicate] = false ∧
    (∀ rc err, timeoutErrorText tailErr ≠ exitCodeErrorText rc err) := by
  refine ⟨rfl, rfl, rfl, fun rc err => ?_⟩
  exact string_append_ne_of_data_ne 9
    "--- Error: Code execution timed out after " "--- Error (Exit Code "
    (toString EXECUTION_TIMEOUT ++ (" seconds ---\n" ++ tailErr))
    (toString rc ++ (") ---\n" ++ err))
    (by decide) (by decide) (by decide)

/-- Witness for C4 at concrete data: the timed-out error text differs from
a nonzero-exit error text. -/
theorem c4_witness : timeoutErrorText "" ≠ exitCodeErrorText 1 "boom" :=
  (c4_timeout_kills_direct_process "import time\ntime.sleep(60)" "/usr/bin/python3"
    "" "").2.2.2 1 "boom"

/-! ## C5 — persistence is not atomic -/

/-- The per-application cache directory of the concrete save scenario. -/
def cacheDir₅ : String := "/home/user/.cache/com.example.python-runner"

/-- A one-tab session to save. -/
def tabs₅ : List Tab := [⟨"print(1)", DEFAULT_VENV_SETTINGS⟩]

/-- C5 counterexample: a successful save opens the *real* cache path
directly with truncating mode and writes the document into it; the trace
contains no write to a temporary path and no rename/replace, so the
claim's "written to a temporary path … then renamed/replaced over the
real path" fails (a crash mid-write can corrupt the saved document). -/
theorem c5_counterexample :
    save_code_to_cache tabs₅ cacheDir₅ false =
      (true, [.makedirs cacheDir₅,
              .openTruncateWrite (pathJoin cacheDir₅ CACHE_FILE_NAME) (saveTabsJson tabs₅)]) ∧
    usesReplace (save_code_to_cache tabs₅ cacheDir₅ false).2 = false ∧
    writesOffPath (pathJoin cacheDir₅ CACHE_FILE_NAME)
      (save_code_to_cache tabs₅ cacheDir₅ false).2 = false := by
  refine ⟨rfl, rfl, ?_⟩
  simp [save_code_to_cache, writesOffPath]

/-- C5 (amended): every save writes the document by truncating the real
cache path in place — never via a temporary path plus atomic
rename/replace — and an I/O failure is reported as the boolean result
rather than an exception. -/
theorem c5_save_direct_write_reported (tabs : List Tab) (cacheDir : String)
    (ioError : Bool) :
    usesReplace (save_code_to_cache tabs cacheDir ioError).2 = false ∧
    writesOffPath (pathJoin cacheDir CACHE_FILE_NAME)
      (save_code_to_cache tabs cacheDir ioError).2 = false ∧
    (save_code_to_cache tabs cacheDir ioError).1 = !ioError ∧
    (ioError = false → (save_code_to_cache tabs cacheDir ioError).2 =
      [.makedirs cacheDir,
       .openTruncateWrite (pathJoin cacheDir CACHE_FILE_NAME) (saveTabsJson tabs)]) := by
  cases ioError <;> simp [save_code_to_cache, usesReplace, writesOffPath]

/-- Witness for C5: the successful one-tab save reports `True` and writes
the document directly to the real path. -/
theorem c5_witness :
    (save_code_to_cache tabs₅ cacheDir₅ false).1 = true ∧
    (save_code_to_cache tabs₅ cacheDir₅ false).2 =
      [.makedirs cacheDir₅,
       .openTruncateWrite (pathJoin cacheDir₅ CACHE_FILE_NAME) (saveTabsJson tabs₅)] := by
  have h := c5_save_direct_write_reported tabs₅ cacheDir₅ false
  exact ⟨h.2.2.1, h.2.2.2 rfl⟩

/-! ## C6 — no exception crosses the thread boundary -/

/-- C6: for every execution request (code run or package listing) and
every subprocess outcome, the worker returns a delivered result — the
`Except.error` case, which would model an exception escaping the worker
thread uncaught, never occurs — and every failure mode on the execution
path (missing binary, timeout, OS-level failure) is converted into the
result's fields with `success = false`. -/
theorem c6_no_exception_crosses_thread_boundary (code interp : String) (o : SpawnOutcome) :
    (∃ d tr, run_code_worker code interp o = .ok (d, tr) ∧
      (isFailureMode o = true → d.success = false)) ∧
    (∃ d tr, pip_freeze_worker interp o = .ok (d, tr) ∧
      (isFailureMode o = true → d.success = false)) := by
  cases o with
  | fileNotFound => exact ⟨⟨_, _, rfl, fun _ => rfl⟩, ⟨_, _, rfl, fun _ => rfl⟩⟩
  | osFailure msg stillRunning =>
    exact ⟨⟨_, _, rfl, fun _ => rfl⟩, ⟨_, _, rfl, fun _ => rfl⟩⟩
  | ok w =>
    cases w with
    | exited rc out err =>
      refine ⟨⟨_, _, rfl, fun h => ?_⟩, ⟨_, _, rfl, fun h => ?_⟩⟩ <;>
        simp [isFailureMode] at h
    | timedOut tailOut tailErr =>
      exact ⟨⟨_, _, rfl, fun _ => rfl⟩, ⟨_, _, rfl, fun _ => rfl⟩⟩

/-- Witness for C6 at a missing interpreter binary: both workers deliver a
failed result instead of raising. -/
theorem c6_witness :
    ((run_code_worker "print(1)" "/usr/bin/python3" .fileNotFound).map
      fun r => r.1.success) = .ok false ∧
    ((pip_freeze_worker "/usr/bin/python3" .fileNotFound).map
      fun r => r.1.success) = .ok false := by
  obtain ⟨hc, hp⟩ :=
    c6_no_exception_crosses_thread_boundary "print(1)" "/usr/bin/python3" .fileNotFound
  obtain ⟨d, tr, heq, hs⟩ := hc
  obtain ⟨d2, tr2, heq2, hs2⟩ := hp
  rw [heq, heq2]
  simp [Except.map, hs rfl, hs2 rfl]

/-! ## C7 — completed-run reporting and output rendering -/

/-- A completed run with nonzero exit whose stdout does not end in a
newline (`sys.stdout.write("x")`). -/
def c7run : Except PyExc (Delivery × List Effect) :=
  run_code_worker "import sys\nsys.stdout.write(\"x\")\nsys.exit(3)" "/usr/bin/python3"
    (.ok (.exited 3 "x" "boom"))

/-- C7 counterexample: when stdout does not end with a newline, the
rendered output is stdout, a single newline, the marker line, and stderr —
it contains no blank line at all, so the claim's "stdout first, then a
blank line and an explicit marker line" fails on this completed run. -/
theorem c7_counterexample :
    (c7run.map fun r => renderOutput r.1.output r.1.error) =
      .ok "x\n--- Error (Exit Code 3) ---\nboom" ∧
    strContains "x\n--- Error (Exit Code 3) ---\nboom" "\n\n" = false :=
  ⟨rfl, rfl⟩

/-- C7 (amended): a nonzero-exit run is still reported as a completed run
carrying its exit code in the error marker, distinct from the spawn
failure message; stderr is preserved even on success (as the warnings
block); and the rendered output is stdout, a newline, the explicit marker
line, then stderr — so a blank line precedes the marker exactly when
stdout itself ends with a newline (as `print` output does). -/
theorem c7_completed_run_reporting (code interp out err : String) (rc : Int)
    (hrc : rc ≠ 0) (hout : out ≠ "") :
    run_code_worker code interp (.ok (.exited rc out err)) =
      .ok (⟨out, exitCodeErrorText rc err, false⟩,
        [.popen [interp, "-u", "-c", code] false, .communicateTimeout EXECUTION_TIMEOUT]) ∧
    exitCodeErrorText rc err ≠ interpreterNotFoundText interp ∧
    (∀ err2, err2 ≠ "" →
      run_code_worker code interp (.ok (.exited 0 out err2)) =
        .ok (⟨out, warningsErrorText err2, true⟩,
          [.popen [interp, "-u", "-c", code] false, .communicateTimeout EXECUTION_TIMEOUT])) ∧
    renderOutput out (exitCodeErrorText rc err) = out ++ "\n" ++ exitCodeErrorText rc err ∧
    (∀ base, out = base ++ "\n" →
      renderOutput out (exitCodeErrorText rc err) =
        base ++ "\n\n" ++ exitCodeErrorText rc err) := by
  have hE : exitCodeErrorText rc err ≠ "" :=
    string_append_ne_empty "--- Error (Exit Code "
      (toString rc ++ (") ---\n" ++ err)) (by decide)
  refine ⟨?_, ?_, ?_, ?_, ?_⟩
  · simp [run_code_worker, run_code_try, hrc]
  · exact string_append_ne_of_data_ne 0
      "--- Error (Exit Code " "Error: Python interpreter '"
      (toString rc ++ (") ---\n" ++ err)) (interp ++ "' not found.")
      (by decide) (by decide) (by decide)
  · intro err2 herr2
    simp [run_code_worker, run_code_try, warningsErrorText, herr2]
  · simp [renderOutput, hE, hout]
  · intro base hb
    subst hb
    simp [renderOutput, hE, hout]
    rw [String.append_assoc base "\n" "\n", show ("\n" : String) ++ "\n" = "\n\n" from rfl]

/-- Witness for C7 at the spec's own example (`print("hi")` then
`sys.exit(3)`): the rendering separates stdout and the marker by a blank
line because `print` output ends in a newline. -/
theorem c7_witness :
    renderOutput "hi\n" (exitCodeErrorText 3 "boom") =
      "hi" ++ "\n\n" ++ exitCodeErrorText 3 "boom" := by
  have h := c7_completed_run_reporting "print(\"hi\"); import sys; sys.exit(3)"
    "/usr/bin/python3" "hi\n" "boom" 3 (by decide) (by decide)
  exact h.2.2.2.2 "hi" rfl

/-! ## C8 — stale results and the output pane -/

/-- Two tabs with distinct pane contents; the user has switched to tab
`1` while a run started from tab `0` is still in flight. -/
def ui₈ : UIState := ⟨[⟨0, "old0"⟩, ⟨1, "old1"⟩], some 1⟩

/-- C8 counterexample: when the stale result for tab `0` arrives, it is
*not* discarded — tab `0`'s output pane is overwritten with the rendered
result even though tab `0` is no longer active (only the status-line
restore is skipped).  The claim's "the result is discarded/ignored"
fails. -/
theorem c8_counterexample :
    (update_output_view ui₈ 0 "done\n" "").1.tabs = [⟨0, "done\n"⟩, ⟨1, "old1"⟩] ∧
    (update_output_view ui₈ 0 "done\n" "").1.tabs ≠ ui₈.tabs ∧
    (update_output_view ui₈ 0 "done\n" "").2 = false := by
  refine ⟨rfl, ?_, rfl⟩
  decide

/-- C8 (amended): a result arriving after the user switched away from the
originating tab is written into the *originating* tab's own output pane —
never into any other tab's pane, which all stay unchanged — and only the
status-line restore is conditional on the originating tab still being
active.  (So a stale result is never misapplied to the wrong pane, but it
is applied, not discarded.) -/
theorem c8_result_to_origin_pane (ui : UIState) (originTid : Nat)
    (output error : String) :
    (update_output_view ui originTid output error).1.current = ui.current ∧
    (∀ (i : Nat) (t : TabUI), ui.tabs[i]? = some t → t.tid ≠ originTid →
      (update_output_view ui originTid output error).1.tabs[i]? = some t) ∧
    (∀ (i : Nat) (t : TabUI), ui.tabs[i]? = some t → t.tid = originTid →
      (update_output_view ui originTid output error).1.tabs[i]? =
        some ⟨t.tid, renderOutput output error⟩) ∧
    (update_output_view ui originTid output error).2 =
      (activeTid ui == some originTid) := by
  refine ⟨rfl, ?_, ?_, rfl⟩
  · intro i t ht hne
    simp [update_output_view, List.getElem?_map, ht, hne]
  · intro i t ht heq
    simp [update_output_view, List.getElem?_map, ht, heq]

/-- Witness for C8: with the run originating from the now-background tab
`0`, the active tab `1`'s pane is untouched and tab `0` receives the
rendered result. -/
theorem c8_witness :
    (update_output_view ui₈ 0 "done\n" "").1.tabs[1]? = some ⟨1, "old1"⟩ ∧
    (update_output_view ui₈ 0 "done\n" "").1.tabs[0]? =
      some ⟨0, renderOutput "done\n" ""⟩ := by
  have h := c8_result_to_origin_pane ui₈ 0 "done\n" ""
  exact ⟨h.2.1 1 ⟨1, "old1"⟩ rfl (by decide), h.2.2.1 0 ⟨0, "old0"⟩ rfl rfl⟩

/-! ## C9 — removing the last tab -/

/-- C9: removing the only remaining tab is permitted: afterwards the open
tab count is zero, no replacement tab is created, and the status label is
set to the no-tabs report (followed by the temporary "Tab removed."
notice from the same action). -/
theorem c9_remove_last_tab_allowed (t : Tab) (tr : List StatusMsg) :
    on_remove_tab_clicked ⟨[t], some 0, tr⟩ =
      ⟨[], none, tr ++ [.text NO_TABS_MSG, .text "Tab removed."]⟩ := by
  simp [on_remove_tab_clicked, on_page_removed, List.eraseIdx]

/-! ## C10 — new tabs inherit the active tab's venv settings -/

/-- C10: a new-tab action invoked while a tab is selected creates the new
tab with a copy of the selected tab's venv settings (appending it and
selecting it); the process-wide defaults are used only when no tab is
selected. -/
theorem c10_new_tab_inherits_settings (st : NB) :
    (∀ i p, st.current = some i → st.pages[i]? = some p →
      on_new_tab_clicked st =
        ⟨st.pages ++ [⟨"", p.venv_settings⟩], some st.pages.length,
         st.status ++ [.envInfo, .text "New Tab Added"]⟩) ∧
    (st.current = none →
      on_new_tab_clicked st =
        ⟨st.pages ++ [⟨"", DEFAULT_VENV_SETTINGS⟩], some st.pages.length,
         st.status ++ [.envInfo, .text "New Tab Added"]⟩) := by
  constructor
  · intro i p hcur hpage
    simp [on_new_tab_clicked, add_new_tab, add_tab_with_content, hcur, hpage]
  · intro hcur
    simp [on_new_tab_clicked, add_new_tab, add_tab_with_content, hcur]

/-- A tab with custom venv settings, selected. -/
def customVenvTab : Tab :=
  ⟨"import this", .obj [("use_custom_venv", .bool true), ("venv_folder", .str "/opt/venv")]⟩

/-- Witness for C10: the tab opened from a selected tab with a custom venv
carries that venv, not the defaults. -/
theorem c10_witness :
    on_new_tab_clicked ⟨[customVenvTab], some 0, []⟩ =
      ⟨[customVenvTab, ⟨"", customVenvTab.venv_settings⟩], some 1,
       [.envInfo, .text "New Tab Added"]⟩ :=
  (c10_new_tab_inherits_settings ⟨[customVenvTab], some 0, []⟩).1 0 customVenvTab rfl rfl

end PythonRunner
